import Mathlib

/-!
Verification development for the Veros NPZD biogeochemistry core
(`veros/core/npzd.py`).  The numeric state of the integrator is embedded
shallowly over the rationals: tracer fields are functions from an abstract
grid-cell type `ι` to `ℚ`, per-tracer dictionaries are functions from the
tracer name (`String`), and numpy boolean masks are `Bool`-valued fields.
Rule functions live in the external module `npzd_rules` (not part of this
repository slice), so a selected rule is modelled by an arbitrary function of
the working buffers and flags together with the key set of the dict it
returns and the boundary slice recorded at registration time.
-/

set_option maxHeartbeats 1000000

/-- Numpy multiplies boolean masks into float arrays as 0/1 factors; this is
that coercion for rational-valued fields. -/
def boolToQ (b : Bool) : ℚ := if b then 1 else 0

/-- Working state of `biogeochemistry`: `buffers` models `vs.temporary_tracers`
(one grid field per tracer name) and `flags` models the `flags` dict of
boolean masks. -/
structure BioState (ι : Type) where
  buffers : String → ι → ℚ
  flags : String → ι → Bool

/-- A selected rule as consumed by `biogeochemistry`.  In the source a selected
rule is the tuple `(function, source, destination, label, boundary, group)`;
the function is called as `rule[0](vs, rule[1], rule[2])` and returns a dict
of increments keyed by tracer name.  The rule functions are defined in the
external `npzd_rules` module, so `eval` is an arbitrary function of the
working buffers and flags (everything the rule can read that varies during
the bio loop), `keys` is the key set of the returned dict, and `boundary` is
the cell set selected by the slice stored at `rule[4]`. -/
structure NpzdRule (ι : Type) where
  keys : List String
  eval : (String → ι → ℚ) → (String → ι → Bool) → String → ι → ℚ
  boundary : ι → Bool

/-- The per-timestep inputs consumed by `biogeochemistry`, with the grid
abstracted to a cell type `ι`: `above` sends a cell to its vertical neighbour
one layer up (the source stores the top layer last, so `impo[:, :, -1] = 0`
becomes `above i = none` for top cells). -/
structure BioConfig (ι : Type) where
  tracers : List String
  maskT : ι → Bool
  trcmin : ℚ
  dt_bio : ℚ
  nbio : ℕ
  npzd_pre_rules : List (NpzdRule ι)
  npzd_rules : List (NpzdRule ι)
  npzd_post_rules : List (NpzdRule ι)
  sinkers : List String
  sinking_speed : String → ι → ℚ
  dzt : ι → ℚ
  above : ι → Option ι
  bottom_mask : ι → Bool
  redfield_ratio_PN : ℚ
  redfield_ratio_CN : ℚ
  enable_carbon : Bool

variable {ι : Type}

/-- One evaluated rule: the key list of the returned dict, its values, and the
boundary of the rule.  Corresponds to one element of the lists built by
`[(rule[0](vs, rule[1], rule[2]), rule[4]) for rule in ...]`. -/
structure RuleUpdate (ι : Type) where
  keys : List String
  val : String → ι → ℚ
  boundary : ι → Bool

/-- Evaluate a list of rules against the current working state (the list
comprehensions at lines 36, 156 and 184 of `npzd.py` evaluate every rule
before any update is applied). -/
def ruleUpdates (rules : List (NpzdRule ι)) (st : BioState ι) : List (RuleUpdate ι) :=
  rules.map (fun r => ⟨r.keys, r.eval st.buffers st.flags, r.boundary⟩)

/-- Apply evaluated rule results to the buffers, each value scaled by `scale`
and added at the cells of the rule's boundary:
`vs.temporary_tracers[key][boundary] += value * scale`. -/
def applyUpdates (scale : ℚ) (ups : List (RuleUpdate ι)) (b : String → ι → ℚ) :
    String → ι → ℚ :=
  ups.foldl
    (fun bb u => fun t i =>
      bb t i + (if t ∈ u.keys ∧ u.boundary i = true then u.val t i * scale else 0)) b

/-- Evaluate rules against `st` and apply them with scale `scale`. -/
def applyRules (scale : ℚ) (rules : List (NpzdRule ι)) (st : BioState ι) : BioState ι :=
  ⟨applyUpdates scale (ruleUpdates rules st) st.buffers, st.flags⟩

/-- `export[sinker] = speed * vs.temporary_tracers[sinker] * flags[sinker] / vs.dzt`
(line 146). -/
def exportOf (cfg : BioConfig ι) (st : BioState ι) (t : String) (i : ι) : ℚ :=
  cfg.sinking_speed t i * st.buffers t i * boolToQ (st.flags t i) / cfg.dzt i

/-- `bottom_export[sinker] = export[sinker] * vs.bottom_mask` (line 147). -/
def bottomExportOf (cfg : BioConfig ι) (st : BioState ι) (t : String) (i : ι) : ℚ :=
  exportOf cfg st t i * boolToQ (cfg.bottom_mask i)

/-- `impo[sinker][:, :, -1] = 0` and
`impo[sinker][:, :, :-1] = export[sinker][:, :, 1:] * (vs.dzt[1:] / vs.dzt[:-1])`
(lines 150-151): import is zero at the top layer and otherwise the export of
the layer above rescaled by the thickness ratio. -/
def impoOf (cfg : BioConfig ι) (st : BioState ι) (t : String) (i : ι) : ℚ :=
  match cfg.above i with
  | none => 0
  | some j => exportOf cfg st t j * (cfg.dzt j / cfg.dzt i)

/-- One iteration of the bio loop (lines 106-181 of `npzd.py`), written as the
source sequences it.  The growth/grazing/mortality quantities computed at
lines 109-139 are stored on `vs` and consumed only by the external rule
functions, which are abstracted into `NpzdRule.eval`; the
`vs.detritus_export` write at line 181 is a pure diagnostic.  The steps in
order: evaluate sinking export/import from the state at loop entry
(145-153), evaluate all PRIMARY rules from that same state and apply them
scaled by `dt_bio` (156-161), add `import_minus_export * dt_bio` for every
sinking tracer (163-165), refresh flags and re-floor every tracer (167-174),
and finally remineralize bottom detritus export into po4 and, when carbon is
enabled, into DIC (176-179). -/
def substep (cfg : BioConfig ι) (st : BioState ι) : BioState ι :=
  let ups := ruleUpdates cfg.npzd_rules st
  let b1 := ups.foldl
    (fun bb u => fun t i =>
      bb t i + (if t ∈ u.keys ∧ u.boundary i = true then u.val t i * cfg.dt_bio else 0))
    st.buffers
  let b2 := fun t i =>
    b1 t i + (if t ∈ cfg.sinkers then (impoOf cfg st t i - exportOf cfg st t i) * cfg.dt_bio else 0)
  let f3 := fun t i =>
    if t ∈ cfg.tracers then (st.flags t i && decide (b2 t i > cfg.trcmin)) else st.flags t i
  let b3 := fun t i =>
    if t ∈ cfg.tracers then (if f3 t i then b2 t i else cfg.trcmin) else b2 t i
  let b4 := fun t i =>
    b3 t i
      + (if t = "po4" then
          bottomExportOf cfg st "detritus" i * cfg.redfield_ratio_PN * cfg.dt_bio else 0)
      + (if cfg.enable_carbon = true ∧ t = "DIC" then
          bottomExportOf cfg st "detritus" i * cfg.redfield_ratio_CN * cfg.dt_bio else 0)
  ⟨b4, f3⟩

/-- INIT of `biogeochemistry`: the working buffers are a snapshot of the
current time level (line 22) and the flags are the domain mask (line 25); the
clipping of the snapshot against `trcmin` at lines 28-33 is commented out in
the source. -/
def initState (cfg : BioConfig ι) (init : String → ι → ℚ) : BioState ι :=
  ⟨init, fun _ i => cfg.maskT i⟩

/-- The `biogeochemistry` routine (lines 12-205 of `npzd.py`) restricted to
its working buffers and flags: snapshot and flag the tracers, apply the PRE
rules unscaled (36-39), run `nbio = int(dt_tracer // dt_bio)` bio sub-steps,
apply the POST rules unscaled (184-189), and re-floor only the tracers
actually modified by POST rules (191-199).  Light, growth, grazing and
mortality fields feed only the abstracted rule functions. -/
def biogeochemistry (cfg : BioConfig ι) (init : String → ι → ℚ) : BioState ι :=
  let st0 := initState cfg init
  let preUps := ruleUpdates cfg.npzd_pre_rules st0
  let bPre := preUps.foldl
    (fun bb u => fun t i =>
      bb t i + (if t ∈ u.keys ∧ u.boundary i = true then u.val t i else 0))
    st0.buffers
  let stPre : BioState ι := ⟨bPre, st0.flags⟩
  let stN := (substep cfg)^[cfg.nbio] stPre
  let postUps := ruleUpdates cfg.npzd_post_rules stN
  let bPost := postUps.foldl
    (fun bb u => fun t i =>
      bb t i + (if t ∈ u.keys ∧ u.boundary i = true then u.val t i else 0))
    stN.buffers
  let post_modified := postUps.foldl (fun acc u => acc ++ u.keys) ([] : List String)
  let fEnd := fun t i =>
    if t ∈ post_modified then (stN.flags t i && decide (bPost t i > cfg.trcmin)) else stN.flags t i
  let bEnd := fun t i =>
    if t ∈ post_modified then (if fEnd t i then bPost t i else cfg.trcmin) else bPost t i
  ⟨bEnd, fEnd⟩

/-- The dict returned by `biogeochemistry` (lines 204-205): working buffer
minus the snapshotted time level, per tracer. -/
def biogeochemistryDiff (cfg : BioConfig ι) (init : String → ι → ℚ) : String → ι → ℚ :=
  fun t i => (biogeochemistry cfg init).buffers t i - init t i

/-!  Named phase functions of one bio sub-step, used to state ordering
properties about `substep`.  `applySinkPhase` and `reminPhase` take the state
`st0` from which the sinking export was computed (the state at loop entry) as
a separate argument, because the source computes `export`/`impo`/
`bottom_export` once per sub-step before any update is applied. -/

/-- Add `import_minus_export[tracer] * dt_bio` for every sinking tracer
(lines 163-165), with the fluxes evaluated from `st0`. -/
def applySinkPhase (cfg : BioConfig ι) (st0 st : BioState ι) : BioState ι :=
  ⟨fun t i =>
      st.buffers t i
        + (if t ∈ cfg.sinkers then (impoOf cfg st0 t i - exportOf cfg st0 t i) * cfg.dt_bio else 0),
   st.flags⟩

/-- Refresh the flags and re-floor every registered tracer (lines 167-174):
`flags[tracer] = logical_and(flags[tracer], data > trcmin)` followed by
`data = where(flags[tracer], data, trcmin)`. -/
def floorPhase (cfg : BioConfig ι) (st : BioState ι) : BioState ι :=
  let f := fun t i =>
    if t ∈ cfg.tracers then (st.flags t i && decide (st.buffers t i > cfg.trcmin)) else st.flags t i
  ⟨fun t i => if t ∈ cfg.tracers then (if f t i then st.buffers t i else cfg.trcmin) else st.buffers t i,
   f⟩

/-- Remineralize material fallen to the ocean floor (lines 176-179):
`po4 += bottom_export["detritus"] * redfield_ratio_PN * dt_bio`, and the same
into DIC with `redfield_ratio_CN` when carbon is enabled; the bottom export
is evaluated from `st0`. -/
def reminPhase (cfg : BioConfig ι) (st0 st : BioState ι) : BioState ι :=
  ⟨fun t i =>
      st.buffers t i
        + (if t = "po4" then
            bottomExportOf cfg st0 "detritus" i * cfg.redfield_ratio_PN * cfg.dt_bio else 0)
        + (if cfg.enable_carbon = true ∧ t = "DIC" then
            bottomExportOf cfg st0 "detritus" i * cfg.redfield_ratio_CN * cfg.dt_bio else 0),
   st.flags⟩

/-- The POST block of `biogeochemistry` (lines 184-199): apply the POST rules
unscaled and then re-floor only the tracers whose keys appear in some POST
rule result. -/
def postPhase (cfg : BioConfig ι) (st : BioState ι) : BioState ι :=
  let ups := ruleUpdates cfg.npzd_post_rules st
  let b := applyUpdates 1 ups st.buffers
  let modified := ups.foldl (fun acc u => acc ++ u.keys) ([] : List String)
  let f := fun t i =>
    if t ∈ modified then (st.flags t i && decide (b t i > cfg.trcmin)) else st.flags t i
  ⟨fun t i => if t ∈ modified then (if f t i then b t i else cfg.trcmin) else b t i, f⟩

/-- Helper: the total (unscaled) contribution of a list of evaluated rule
results to tracer `t` at cell `i`, respecting key sets and boundaries. -/
def contribSum (ups : List (RuleUpdate ι)) (t : String) (i : ι) : ℚ :=
  (ups.map (fun u => if t ∈ u.keys ∧ u.boundary i = true then u.val t i else 0)).sum

lemma applyUpdates_eq_contribSum (scale : ℚ) (ups : List (RuleUpdate ι))
    (b : String → ι → ℚ) (t : String) (i : ι) :
    applyUpdates scale ups b t i = b t i + scale * contribSum ups t i := by
  induction ups generalizing b with
  | nil => simp [applyUpdates, contribSum]
  | cons u us ih =>
      have h1 : applyUpdates scale (u :: us) b =
          applyUpdates scale us
            (fun t i =>
              b t i + (if t ∈ u.keys ∧ u.boundary i = true then u.val t i * scale else 0)) := rfl
      rw [h1, ih]
      by_cases hc : t ∈ u.keys ∧ u.boundary i = true
      · simp only [contribSum, List.map_cons, List.sum_cons, if_pos hc]
        ring
      · simp only [contribSum, List.map_cons, List.sum_cons, if_neg hc]
        ring

lemma applyUpdates_one (ups : List (RuleUpdate ι)) (b : String → ι → ℚ) :
    applyUpdates 1 ups b =
      ups.foldl
        (fun bb u => fun t i =>
          bb t i + (if t ∈ u.keys ∧ u.boundary i = true then u.val t i else 0)) b := by
  induction ups generalizing b with
  | nil => rfl
  | cons u us ih =>
      have h1 : (fun t i =>
          b t i + (if t ∈ u.keys ∧ u.boundary i = true then u.val t i * 1 else 0)) =
          (fun t i => b t i + (if t ∈ u.keys ∧ u.boundary i = true then u.val t i else 0)) := by
        funext t i
        by_cases hc : t ∈ u.keys ∧ u.boundary i = true
        · rw [if_pos hc, if_pos hc, mul_one]
        · rw [if_neg hc, if_neg hc]
      have h0 : applyUpdates 1 (u :: us) b =
          applyUpdates 1 us
            (fun t i =>
              b t i + (if t ∈ u.keys ∧ u.boundary i = true then u.val t i * 1 else 0)) := rfl
      rw [h0, h1, ih]
      rfl

/-- The bio sub-step factors as the code-ordered composition of its phases:
PRIMARY rules scaled by `dt_bio`, then sinking import-minus-export, then the
flag refresh and re-floor of every tracer, and bottom remineralization last
(with sinking fluxes and bottom export evaluated from the loop-entry state). -/
lemma substep_phases (cfg : BioConfig ι) (st : BioState ι) :
    substep cfg st =
      reminPhase cfg st
        (floorPhase cfg
          (applySinkPhase cfg st (applyRules cfg.dt_bio cfg.npzd_rules st))) := rfl

/-- Modelled from the spec (claim C2 wording, for comparison with `substep`):
a sub-step in which PRIMARY rules, sinking and bottom remineralization are
applied first and the flag refresh and re-floor come last. -/
def substepSpecOrder (cfg : BioConfig ι) (st : BioState ι) : BioState ι :=
  floorPhase cfg
    (reminPhase cfg st
      (applySinkPhase cfg st (applyRules cfg.dt_bio cfg.npzd_rules st)))

/-- Modelled from the spec (claim C3 wording, for comparison with `substep`):
a sub-step whose flag refresh recomputes every flag fresh from the current
data alone, `flag = (data > trcmin) AND maskT`, ignoring the previous flag. -/
def substepSpecFreshFlags (cfg : BioConfig ι) (st : BioState ι) : BioState ι :=
  let ups := ruleUpdates cfg.npzd_rules st
  let b1 := ups.foldl
    (fun bb u => fun t i =>
      bb t i + (if t ∈ u.keys ∧ u.boundary i = true then u.val t i * cfg.dt_bio else 0))
    st.buffers
  let b2 := fun t i =>
    b1 t i + (if t ∈ cfg.sinkers then (impoOf cfg st t i - exportOf cfg st t i) * cfg.dt_bio else 0)
  let f3 := fun t i =>
    if t ∈ cfg.tracers then (decide (b2 t i > cfg.trcmin) && cfg.maskT i) else st.flags t i
  let b3 := fun t i =>
    if t ∈ cfg.tracers then (if f3 t i then b2 t i else cfg.trcmin) else b2 t i
  let b4 := fun t i =>
    b3 t i
      + (if t = "po4" then
          bottomExportOf cfg st "detritus" i * cfg.redfield_ratio_PN * cfg.dt_bio else 0)
      + (if cfg.enable_carbon = true ∧ t = "DIC" then
          bottomExportOf cfg st "detritus" i * cfg.redfield_ratio_CN * cfg.dt_bio else 0)
  ⟨b4, f3⟩

/-- Modelled from the spec (claim C3 wording): flags at INIT computed as
`(concentration > trcmin) AND domain mask`.  The source instead sets the INIT
flags to the domain mask alone (line 25; the concentration test at lines
28-33 is commented out). -/
def initFlagsSpec (cfg : BioConfig ι) (init : String → ι → ℚ) (t : String) (i : ι) : Bool :=
  decide (init t i > cfg.trcmin) && cfg.maskT i

/-- `biogeochemistry` factors as: PRE rules applied once, unscaled, to the
snapshotted state; `nbio` iterations of the bio sub-step; POST rules applied
once, unscaled, followed by the POST-only re-floor. -/
lemma biogeochemistry_phases (cfg : BioConfig ι) (init : String → ι → ℚ) :
    biogeochemistry cfg init =
      postPhase cfg
        ((substep cfg)^[cfg.nbio]
          (applyRules 1 cfg.npzd_pre_rules (initState cfg init))) := by
  simp only [biogeochemistry, postPhase, applyRules, applyUpdates_one]

/-!  The grazing model (`zooplankton_grazing`, lines 208-234).  All array
operations are pointwise per grid cell, so the embedding works at a single
cell: tracer concentrations and flags are given per name, and each of the
four dicts produced (all keyed by the keys of `vs.zprefs`) is modelled by
its value at a prey name. -/

/-- The scalar parameters read by `zooplankton_grazing`; `zprefs` is the
zooplankton preference dict as a keyed list. -/
structure GrazeParams where
  zprefs : List (String × ℚ)
  saturation_constant_Z_grazing : ℚ
  redfield_ratio_PN : ℚ
  assimilation_efficiency : ℚ
  zooplankton_growth_efficiency : ℚ

/-- Dict access `vs.zprefs[preference]` (the keys used always exist). -/
def zprefScore (p : GrazeParams) (prey : String) : ℚ :=
  (p.zprefs.lookup prey).getD 0

/-- `thetaZ = sum(pref_score * tracers[preference] for ...) +
saturation_constant_Z_grazing * redfield_ratio_PN` (lines 217-218). -/
def thetaZ (p : GrazeParams) (tracers : String → ℚ) : ℚ :=
  (p.zprefs.map (fun pr => pr.2 * tracers pr.1)).sum
    + p.saturation_constant_Z_grazing * p.redfield_ratio_PN

/-- `ingestion = {preference: pref_score / thetaZ ...}` (line 220). -/
def ingestion (p : GrazeParams) (tracers : String → ℚ) (prey : String) : ℚ :=
  zprefScore p prey / thetaZ p tracers

/-- `grazing = {preference: flags[preference] * flags["zooplankton"] * gmax *
ingestion[preference] * tracers[preference] * tracers["zooplankton"] ...}`
(lines 222-224). -/
def grazing (p : GrazeParams) (tracers : String → ℚ) (flags : String → Bool)
    (gmax : ℚ) (prey : String) : ℚ :=
  boolToQ (flags prey) * boolToQ (flags "zooplankton") * gmax
    * ingestion p tracers prey * tracers prey * tracers "zooplankton"

/-- `digestion = {preference: assimilation_efficiency * amount_grazed ...}`
(lines 226-227). -/
def digestion (p : GrazeParams) (tracers : String → ℚ) (flags : String → Bool)
    (gmax : ℚ) (prey : String) : ℚ :=
  p.assimilation_efficiency * grazing p tracers flags gmax prey

/-- `excretion = {preference: (1 - zooplankton_growth_efficiency) *
amount_digested ...}` (lines 229-230). -/
def excretion (p : GrazeParams) (tracers : String → ℚ) (flags : String → Bool)
    (gmax : ℚ) (prey : String) : ℚ :=
  (1 - p.zooplankton_growth_efficiency) * digestion p tracers flags gmax prey

/-- `sloppy_feeding = {preference: grazing[preference] - digestion[preference]
...}` (line 232). -/
def sloppy_feeding (p : GrazeParams) (tracers : String → ℚ) (flags : String → Bool)
    (gmax : ℚ) (prey : String) : ℚ :=
  grazing p tracers flags gmax prey - digestion p tracers flags gmax prey

/-- Vertical neighbour map of a single full water column of `n` wet layers,
indexed with the source's layer convention: index `n - 1` is the surface
layer (numpy index `-1`) and index `0` is the deepest layer, so the layer
above `k` is `k + 1` when it exists. -/
def colAbove (n : ℕ) (k : ℕ) : Option ℕ :=
  if k + 1 < n then some (k + 1) else none

/-!  The tracer registry and rule catalog (`register_npzd_data`,
`_get_boundary`, `register_npzd_rule`, `select_npzd_rule`, lines 342-433, and
the registry effects of the setup routines).  Tracer values are external grid
arrays, so the registry keeps only the names; rule functions live in the
external `npzd_rules` module and are identified by their names.  Python
errors (`ValueError`, `TypeError`, `KeyError`) are modelled as
`Except.error` with the message of the raise site. -/

/-- The value `_get_boundary` resolves a boundary string to: the surface
slice `[:, :, -1]`, the bottom mask, or the whole-volume slice. -/
inductive BoundaryVal where
  | surface
  | bottom
  | all
deriving DecidableEq, Repr

/-- `_get_boundary(vs, boundary_string)` (lines 359-375); the `boundary`
argument defaults to `None`, modelled as `none`. -/
def _get_boundary (boundary_string : Option String) : BoundaryVal :=
  if boundary_string = some "SURFACE" then .surface
  else if boundary_string = some "BOTTOM" then .bottom
  else .all

/-- A registered single rule: the tuple
`(*rule, label, _get_boundary(vs, boundary), group)` built at line 404, with
the external reaction function identified by name. -/
structure RuleTuple where
  func : String
  source : String
  destination : String
  label : String
  boundary : BoundaryVal
  group : String
deriving DecidableEq, Repr

/-- A value stored in `vs.npzd_available_rules`: a rule tuple, a group (list
of names), or any other Python value (rejected by `select_npzd_rule` with a
`TypeError`). -/
inductive RuleVal where
  | tup (r : RuleTuple)
  | lst (names : List String)
  | other
deriving DecidableEq, Repr

/-- The `rule` argument of `register_npzd_rule`: either a
`(function, source, destination)` tuple or a list of rule names. -/
inductive RuleArg where
  | tupArg (func source destination : String)
  | lstArg (names : List String)
deriving DecidableEq, Repr

/-- The registry and selection state created by `setupNPZD`
(lines 719-729), keeping insertion order as Python dicts do. -/
structure NpzdSetupState where
  npzd_tracers : List String
  npzd_transported_tracers : List String
  npzd_available_rules : List (String × RuleVal)
  npzd_selected_rule_names : List String
  npzd_rules : List RuleTuple
  npzd_pre_rules : List RuleTuple
  npzd_post_rules : List RuleTuple
deriving DecidableEq, Repr

deriving instance DecidableEq for Except

/-- The empty registry state built at the top of `setupNPZD`. -/
def initialSetupState : NpzdSetupState :=
  ⟨[], [], [], [], [], [], []⟩

/-- Python truthiness of an optional string (`None` and `""` are falsy),
used by `if label or boundary:` and `label = label or "?"`. -/
def strTruthy : Option String → Bool
  | none => false
  | some s => !s.isEmpty

/-- `label = label or "?"` (line 403). -/
def labelOr (label : Option String) : String :=
  if strTruthy label then label.getD "?" else "?"

/-- `register_npzd_data(vs, name, value, transport=True)` (lines 342-356)
restricted to its registry effect: error on a duplicate name, otherwise add
the tracer and append it to the transported list iff `transport`. -/
def register_npzd_data (st : NpzdSetupState) (name : String) (transport : Bool) :
    Except String NpzdSetupState :=
  if name ∈ st.npzd_tracers then
    .error "has already been added to the NPZD data set"
  else
    .ok { st with
      npzd_tracers := st.npzd_tracers ++ [name],
      npzd_transported_tracers :=
        if transport then st.npzd_transported_tracers ++ [name]
        else st.npzd_transported_tracers }

/-- `register_npzd_rule(vs, name, rule, label=None, boundary=None,
group="PRIMARY")` (lines 378-404): error on a duplicate rule name; a list
argument registers a group and rejects a truthy label or boundary; otherwise
the tuple `(*rule, label or "?", _get_boundary(vs, boundary), group)` is
stored. -/
def register_npzd_rule (st : NpzdSetupState) (name : String) (rule : RuleArg)
    (label : Option String) (boundary : Option String) (group : String) :
    Except String NpzdSetupState :=
  if (st.npzd_available_rules.lookup name).isSome then
    .error "Rule already exists, please verify the rule has not already been added and replace the chosen name"
  else
    match rule with
    | .lstArg names =>
        if strTruthy label || strTruthy boundary then
          .error "Cannot add labels or boundaries to rule groups"
        else
          .ok { st with
            npzd_available_rules := st.npzd_available_rules ++ [(name, .lst names)] }
    | .tupArg f s d =>
        .ok { st with
          npzd_available_rules :=
            st.npzd_available_rules
              ++ [(name, .tup ⟨f, s, d, labelOr label, _get_boundary boundary, group⟩)] }

/-- `select_npzd_rule(vs, name)` (lines 407-433): look the name up (a missing
name is a Python `KeyError`), reject a name selected before, record the name,
then recursively select the members of a group in listed order, or append a
tuple to the phase list named by its group (`PRIMARY`/`PRE`/`POST`, silently
dropping any other group string), or raise a `TypeError` for any other
value.  The Python recursion carries no explicit bound, so the embedding
takes a fuel argument; any fuel deeper than the group nesting gives the
source behaviour. -/
def select_npzd_rule (fuel : ℕ) (st : NpzdSetupState) (name : String) :
    Except String NpzdSetupState :=
  match fuel with
  | 0 => .error "recursion limit"
  | fuel + 1 =>
    match st.npzd_available_rules.lookup name with
    | none => .error "KeyError"
    | some rule =>
      if name ∈ st.npzd_selected_rule_names then
        .error "Rules must have unique names, defined multiple times"
      else
        let st1 := { st with
          npzd_selected_rule_names := st.npzd_selected_rule_names ++ [name] }
        match rule with
        | .lst rs => rs.foldlM (fun s r => select_npzd_rule fuel s r) st1
        | .tup r =>
          if r.group = "PRIMARY" then
            .ok { st1 with npzd_rules := st1.npzd_rules ++ [r] }
          else if r.group = "PRE" then
            .ok { st1 with npzd_pre_rules := st1.npzd_pre_rules ++ [r] }
          else if r.group = "POST" then
            .ok { st1 with npzd_post_rules := st1.npzd_post_rules ++ [r] }
          else .ok st1
        | .other => .error "Rule must be of type tuple or list"

/-- Registry effect of `setup_basic_npzd_rules` (lines 448-534): the four
basic tracers and the twelve basic rules plus the `group_npzd_basic` group,
registered in source order.  The numeric fields it also fills in
(`bottom_mask`, `sinking_speeds`, growth/limitation/mortality tables,
`zprefs`) live outside the registry state. -/
def setup_basic_npzd_rules (st : NpzdSetupState) : Except String NpzdSetupState := do
  let st ← register_npzd_data st "detritus" true
  let st ← register_npzd_data st "phytoplankton" true
  let st ← register_npzd_data st "zooplankton" true
  let st ← register_npzd_data st "po4" true
  let st ← register_npzd_rule st "npzd_basic_phytoplankton_grazing"
    (.tupArg "grazing" "phytoplankton" "zooplankton") (some "Grazing") none "PRIMARY"
  let st ← register_npzd_rule st "npzd_basic_phytoplankton_mortality"
    (.tupArg "mortality" "phytoplankton" "detritus") (some "Mortality") none "PRIMARY"
  let st ← register_npzd_rule st "npzd_basic_phytoplankton_sloppy_feeding"
    (.tupArg "sloppy_feeding" "phytoplankton" "detritus") (some "Sloppy feeding") none "PRIMARY"
  let st ← register_npzd_rule st "npzd_basic_phytoplankton_fast_recycling"
    (.tupArg "recycling_to_po4" "phytoplankton" "po4") (some "Fast recycling") none "PRIMARY"
  let st ← register_npzd_rule st "npzd_basic_zooplankton_grazing"
    (.tupArg "zooplankton_self_grazing" "zooplankton" "zooplankton") (some "Grazing") none "PRIMARY"
  let st ← register_npzd_rule st "npzd_basic_zooplankton_excretion"
    (.tupArg "excretion" "zooplankton" "po4") (some "Excretion") none "PRIMARY"
  let st ← register_npzd_rule st "npzd_basic_zooplankton_mortality"
    (.tupArg "mortality" "zooplankton" "detritus") (some "Mortality") none "PRIMARY"
  let st ← register_npzd_rule st "npzd_basic_zooplankton_sloppy_feeding"
    (.tupArg "sloppy_feeding" "zooplankton" "detritus") (some "Sloppy feeding") none "PRIMARY"
  let st ← register_npzd_rule st "npzd_basic_detritus_sloppy_feeding"
    (.tupArg "sloppy_feeding" "detritus" "detritus") (some "Sloppy feeding") none "PRIMARY"
  let st ← register_npzd_rule st "npzd_basic_detritus_grazing"
    (.tupArg "grazing" "detritus" "zooplankton") (some "Grazing") none "PRIMARY"
  let st ← register_npzd_rule st "npzd_basic_detritus_remineralization"
    (.tupArg "recycling_to_po4" "detritus" "po4") (some "Remineralization") none "PRIMARY"
  let st ← register_npzd_rule st "npzd_basic_phytoplankton_primary_production"
    (.tupArg "primary_production" "po4" "phytoplankton") (some "Primary production") none "PRIMARY"
  register_npzd_rule st "group_npzd_basic"
    (.lstArg ["npzd_basic_phytoplankton_grazing",
      "npzd_basic_phytoplankton_mortality",
      "npzd_basic_phytoplankton_sloppy_feeding",
      "npzd_basic_phytoplankton_fast_recycling",
      "npzd_basic_phytoplankton_primary_production",
      "npzd_basic_zooplankton_grazing",
      "npzd_basic_zooplankton_excretion",
      "npzd_basic_zooplankton_mortality",
      "npzd_basic_zooplankton_sloppy_feeding",
      "npzd_basic_detritus_sloppy_feeding",
      "npzd_basic_detritus_remineralization",
      "npzd_basic_detritus_grazing"]) none none "PRIMARY"

/-- The member list of the `group_carbon_implicit_caco3` group registered at
lines 615-627. -/
def carbonGroupNames : List String :=
  ["npzd_carbon_flux",
   "npzd_carbon_recycling_detritus_dic",
   "npzd_carbon_primary_production_dic",
   "npzd_carbon_recycling_phyto_dic",
   "npzd_carbon_excretion_dic",
   "npzd_carbon_dic_alk",
   "npzd_carbon_calcite_production_dic",
   "npzd_carbon_calcite_production_alk",
   "npzd_carbon_post_distribute_calcite_alk",
   "npzd_carbon_post_distribute_calcite_dic",
   "pre_reset_calcite"]

/-- Registry effect of `setup_carbon_npzd_rules` (lines 538-627): register
the DIC and alkalinity tracers, register `caco3` (with `transport=False`)
only when calcifiers are disabled, then register the eleven carbon rules and
the `group_carbon_implicit_caco3` group in source order.  The `rcak`/`rcab`
dissolution profile computed at lines 550-559 lives outside the registry
state. -/
def setup_carbon_npzd_rules (enable_calcifiers : Bool) (st : NpzdSetupState) :
    Except String NpzdSetupState := do
  let st ← register_npzd_data st "DIC" true
  let st ← register_npzd_data st "alkalinity" true
  let st ← if enable_calcifiers then pure st else register_npzd_data st "caco3" false
  let st ← register_npzd_rule st "npzd_carbon_flux"
    (.tupArg "co2_surface_flux" "co2" "DIC") none (some "SURFACE") "PRE"
  let st ← register_npzd_rule st "npzd_carbon_recycling_detritus_dic"
    (.tupArg "recycling_to_dic" "detritus" "DIC") (some "Remineralization") none "PRIMARY"
  let st ← register_npzd_rule st "npzd_carbon_primary_production_dic"
    (.tupArg "primary_production_from_DIC" "DIC" "phytoplankton") (some "Primary production") none "PRIMARY"
  let st ← register_npzd_rule st "npzd_carbon_recycling_phyto_dic"
    (.tupArg "recycling_phyto_to_dic" "phytoplankton" "DIC") (some "Fast recycling") none "PRIMARY"
  let st ← register_npzd_rule st "npzd_carbon_excretion_dic"
    (.tupArg "excretion_dic" "zooplankton" "DIC") (some "Excretion") none "PRIMARY"
  let st ← register_npzd_rule st "npzd_carbon_dic_alk"
    (.tupArg "dic_alk_scale" "DIC" "alkalinity") none none "POST"
  let st ← register_npzd_rule st "npzd_carbon_calcite_production_dic"
    (.tupArg "calcite_production_phyto" "DIC" "caco3") (some "Production of calcite") none "PRIMARY"
  let st ← register_npzd_rule st "npzd_carbon_calcite_production_alk"
    (.tupArg "calcite_production_phyto_alk" "alkalinity" "caco3") (some "Production of calcite") none "PRIMARY"
  let st ← register_npzd_rule st "npzd_carbon_post_distribute_calcite_alk"
    (.tupArg "post_redistribute_calcite" "caco3" "alkalinity") (some "dissolution") none "POST"
  let st ← register_npzd_rule st "npzd_carbon_post_distribute_calcite_dic"
    (.tupArg "post_redistribute_calcite" "caco3" "DIC") (some "dissolution") none "POST"
  let st ← register_npzd_rule st "pre_reset_calcite"
    (.tupArg "pre_reset_calcite" "caco3" "caco3") (some "reset") none "PRE"
  register_npzd_rule st "group_carbon_implicit_caco3" (.lstArg carbonGroupNames) none none "PRIMARY"

/-- Extract the state of a successful setup step (all setup steps proved
below do succeed). -/
def exOk (e : Except String NpzdSetupState) : NpzdSetupState :=
  match e with
  | .ok st => st
  | .error _ => initialSetupState

/-- The registry state after `setup_basic_npzd_rules` has run on the fresh
state of `setupNPZD`, which is the state `setup_carbon_npzd_rules` sees when
the carbon extension is enabled (lines 744-748). -/
def stBasic : NpzdSetupState :=
  exOk (setup_basic_npzd_rules initialSetupState)

/-!  Theorems about the claims. -/

/-- Claim C4: for all input concentration fields ≥ 0 and all flag fields, the
four outputs of `zooplankton_grazing` satisfy, per prey name and per cell:
digestion = assimilation_efficiency × grazing, excretion =
(1 − zooplankton_growth_efficiency) × digestion, sloppy_feeding =
grazing − digestion, and hence grazing = digestion + sloppy_feeding
exactly. -/
theorem zooplankton_grazing_relations (p : GrazeParams) (tracers : String → ℚ)
    (flags : String → Bool) (gmax : ℚ) (prey : String)
    (h : ∀ s, 0 ≤ tracers s) :
    digestion p tracers flags gmax prey
        = p.assimilation_efficiency * grazing p tracers flags gmax prey
    ∧ excretion p tracers flags gmax prey
        = (1 - p.zooplankton_growth_efficiency) * digestion p tracers flags gmax prey
    ∧ sloppy_feeding p tracers flags gmax prey
        = grazing p tracers flags gmax prey - digestion p tracers flags gmax prey
    ∧ grazing p tracers flags gmax prey
        = digestion p tracers flags gmax prey + sloppy_feeding p tracers flags gmax prey := by
  refine ⟨rfl, rfl, rfl, ?_⟩
  simp only [digestion, sloppy_feeding]
  ring

/-- Concrete grazing parameters used to witness `zooplankton_grazing_relations`. -/
def grazeParamsW : GrazeParams :=
  ⟨[("phytoplankton", 1), ("zooplankton", 1), ("detritus", 1)], 1, 1, 1 / 2, 1 / 2⟩

/-- Witness for claim C4 at concrete inputs. -/
theorem zooplankton_grazing_relations_witness :
    (∀ s : String, 0 ≤ (fun _ : String => (1 : ℚ)) s)
    ∧ (digestion grazeParamsW (fun _ => 1) (fun _ => true) 1 "phytoplankton"
          = grazeParamsW.assimilation_efficiency
              * grazing grazeParamsW (fun _ => 1) (fun _ => true) 1 "phytoplankton"
        ∧ excretion grazeParamsW (fun _ => 1) (fun _ => true) 1 "phytoplankton"
          = (1 - grazeParamsW.zooplankton_growth_efficiency)
              * digestion grazeParamsW (fun _ => 1) (fun _ => true) 1 "phytoplankton"
        ∧ sloppy_feeding grazeParamsW (fun _ => 1) (fun _ => true) 1 "phytoplankton"
          = grazing grazeParamsW (fun _ => 1) (fun _ => true) 1 "phytoplankton"
              - digestion grazeParamsW (fun _ => 1) (fun _ => true) 1 "phytoplankton"
        ∧ grazing grazeParamsW (fun _ => 1) (fun _ => true) 1 "phytoplankton"
          = digestion grazeParamsW (fun _ => 1) (fun _ => true) 1 "phytoplankton"
              + sloppy_feeding grazeParamsW (fun _ => 1) (fun _ => true) 1 "phytoplankton") :=
  ⟨fun _ => by norm_num,
   zooplankton_grazing_relations grazeParamsW (fun _ => 1) (fun _ => true) 1 "phytoplankton"
     (fun _ => by norm_num)⟩

/-- Claim C5: for every sinking tracer over a full water column, the export,
bottom-export and import fields obey their defining formulas (export =
flag × speed × concentration / thickness, zero import at the surface layer,
and import = export of the layer above rescaled by the thickness ratio), and the
thickness-weighted sum of (import − export) over the column telescopes to
minus the material leaving through the bottom cell. -/
theorem sinking_column_telescope (n : ℕ) (cfg : BioConfig ℕ) (st : BioState ℕ)
    (t : String) (hn : 0 < n) (habove : ∀ k, cfg.above k = colAbove n k)
    (hdz : ∀ k, 0 < cfg.dzt k) (hb : cfg.bottom_mask 0 = true) :
    (∀ k, exportOf cfg st t k
        = cfg.sinking_speed t k * st.buffers t k * boolToQ (st.flags t k) / cfg.dzt k)
    ∧ impoOf cfg st t (n - 1) = 0
    ∧ (∀ k, k + 1 < n →
        impoOf cfg st t k = exportOf cfg st t (k + 1) * (cfg.dzt (k + 1) / cfg.dzt k))
    ∧ (∑ k in Finset.range n, cfg.dzt k * (impoOf cfg st t k - exportOf cfg st t k))
        = -(cfg.dzt 0 * bottomExportOf cfg st t 0) := by
  have key : ∀ k, cfg.dzt k * impoOf cfg st t k
      = if k + 1 < n then cfg.dzt (k + 1) * exportOf cfg st t (k + 1) else 0 := by
    intro k
    by_cases h : k + 1 < n
    · have ha : cfg.above k = some (k + 1) := by rw [habove k, colAbove, if_pos h]
      have h0 : cfg.dzt k ≠ 0 := ne_of_gt (hdz k)
      rw [if_pos h]
      simp only [impoOf, ha]
      field_simp
      ring
    · have ha : cfg.above k = none := by rw [habove k, colAbove, if_neg h]
      rw [if_neg h]
      simp [impoOf, ha]
  obtain ⟨m, rfl⟩ : ∃ m, n = m + 1 := ⟨n - 1, (Nat.succ_pred_eq_of_pos hn).symm⟩
  refine ⟨fun k => rfl, ?_, ?_, ?_⟩
  · have ha : cfg.above m = none := by
      rw [habove m, colAbove, if_neg (lt_irrefl (m + 1))]
    show impoOf cfg st t (m + 1 - 1) = 0
    simp [impoOf, Nat.add_sub_cancel, ha]
  · intro k hk
    have ha : cfg.above k = some (k + 1) := by rw [habove k, colAbove, if_pos hk]
    simp [impoOf, ha]
  · have hbot : bottomExportOf cfg st t 0 = exportOf cfg st t 0 := by
      rw [bottomExportOf, hb]
      simp [boolToQ]
    have hsplit : (∑ k in Finset.range (m + 1),
          cfg.dzt k * (impoOf cfg st t k - exportOf cfg st t k))
        = (∑ k in Finset.range (m + 1), cfg.dzt k * impoOf cfg st t k)
          - ∑ k in Finset.range (m + 1), cfg.dzt k * exportOf cfg st t k := by
      rw [← Finset.sum_sub_distrib]
      exact Finset.sum_congr rfl (fun k _ => by ring)
    have hA : (∑ k in Finset.range (m + 1), cfg.dzt k * impoOf cfg st t k)
        = ∑ k in Finset.range m, cfg.dzt (k + 1) * exportOf cfg st t (k + 1) := by
      rw [Finset.sum_range_succ, key m, if_neg (lt_irrefl (m + 1)), add_zero]
      refine Finset.sum_congr rfl (fun k hk => ?_)
      have hk' : k + 1 < m + 1 := Nat.succ_lt_succ (Finset.mem_range.mp hk)
      rw [key k, if_pos hk']
    have hB : (∑ k in Finset.range (m + 1), cfg.dzt k * exportOf cfg st t k)
        = (∑ k in Finset.range m, cfg.dzt (k + 1) * exportOf cfg st t (k + 1))
          + cfg.dzt 0 * exportOf cfg st t 0 :=
      Finset.sum_range_succ' (fun k => cfg.dzt k * exportOf cfg st t k) m
    rw [hsplit, hA, hB, hbot]
    ring

/-- A two-layer single water column used to witness
`sinking_column_telescope` (layer 1 is the surface, layer 0 the bottom). -/
def cfgCol : BioConfig ℕ :=
  { tracers := ["detritus", "po4"], maskT := fun _ => true, trcmin := 0, dt_bio := 1, nbio := 1,
    npzd_pre_rules := [], npzd_rules := [], npzd_post_rules := [],
    sinkers := ["detritus"], sinking_speed := fun _ _ => 1, dzt := fun _ => 1,
    above := colAbove 2, bottom_mask := fun k => decide (k = 0),
    redfield_ratio_PN := 1, redfield_ratio_CN := 1, enable_carbon := false }

/-- Concrete column state used to witness `sinking_column_telescope`. -/
def stCol : BioState ℕ :=
  ⟨fun _ _ => 1, fun _ _ => true⟩

/-- Witness for claim C5 at a concrete two-layer column. -/
theorem sinking_column_telescope_witness :
    (0 < 2 ∧ (∀ k, cfgCol.above k = colAbove 2 k) ∧ (∀ k, 0 < cfgCol.dzt k)
      ∧ cfgCol.bottom_mask 0 = true)
    ∧ ((∀ k, exportOf cfgCol stCol "detritus" k
          = cfgCol.sinking_speed "detritus" k * stCol.buffers "detritus" k
              * boolToQ (stCol.flags "detritus" k) / cfgCol.dzt k)
        ∧ impoOf cfgCol stCol "detritus" (2 - 1) = 0
        ∧ (∀ k, k + 1 < 2 →
            impoOf cfgCol stCol "detritus" k
              = exportOf cfgCol stCol "detritus" (k + 1) * (cfgCol.dzt (k + 1) / cfgCol.dzt k))
        ∧ (∑ k in Finset.range 2,
            cfgCol.dzt k * (impoOf cfgCol stCol "detritus" k - exportOf cfgCol stCol "detritus" k))
          = -(cfgCol.dzt 0 * bottomExportOf cfgCol stCol "detritus" 0)) :=
  ⟨⟨by norm_num, fun _ => rfl, fun _ => by norm_num [cfgCol], rfl⟩,
   sinking_column_telescope 2 cfgCol stCol "detritus" (by norm_num) (fun _ => rfl)
     (fun _ => by norm_num [cfgCol]) rfl⟩

/-- A one-cell configuration (the single cell is both the surface and the
bottom layer) with a sinking detritus tracer and no selected rules, used to
exercise the bio sub-step at a snapshot containing a negative detritus
value (`biogeochemistry` starts from the raw snapshot: the clip at lines
28-33 is commented out). -/
def cfgA : BioConfig Unit :=
  { tracers := ["detritus", "po4"], maskT := fun _ => true, trcmin := 0, dt_bio := 1, nbio := 1,
    npzd_pre_rules := [], npzd_rules := [], npzd_post_rules := [],
    sinkers := ["detritus"], sinking_speed := fun _ _ => 1, dzt := fun _ => 1,
    above := fun _ => none, bottom_mask := fun _ => true,
    redfield_ratio_PN := 1, redfield_ratio_CN := 1, enable_carbon := false }

/-- Working state with detritus = −1 and po4 = 0 at the single cell. -/
def stA : BioState Unit :=
  ⟨fun t _ => if t = "detritus" then -1 else 0, fun _ _ => true⟩

/-- Claim C1 counterexample: after one bio sub-step of `cfgA` from `stA`, the
po4 working buffer is strictly below `trcmin` at a cell where the domain
mask is true — the bottom remineralization (lines 176-179) is applied after
the re-floor (lines 167-174) and here adds a negative bottom detritus
export. -/
theorem substep_floor_counterexample :
    "po4" ∈ cfgA.tracers ∧ cfgA.maskT () = true
      ∧ (substep cfgA stA).buffers "po4" () < cfgA.trcmin := by
  refine ⟨by decide, rfl, ?_⟩
  have h1 : (substep cfgA stA).buffers "po4" () = -1 := by
    simp [substep, ruleUpdates, applyUpdates, impoOf, exportOf, bottomExportOf, boolToQ,
      cfgA, stA]
  rw [h1]
  norm_num [cfgA]

/-- Helper: after the re-floor of lines 167-174 every registered tracer is at
least `trcmin` everywhere. -/
lemma floorPhase_lb (cfg : BioConfig ι) (st : BioState ι) (t : String) (i : ι)
    (ht : t ∈ cfg.tracers) : cfg.trcmin ≤ (floorPhase cfg st).buffers t i := by
  show cfg.trcmin ≤
    (if t ∈ cfg.tracers then
      (if (if t ∈ cfg.tracers then
            (st.flags t i && decide (st.buffers t i > cfg.trcmin)) else st.flags t i) = true
        then st.buffers t i else cfg.trcmin)
      else st.buffers t i)
  rw [if_pos ht, if_pos ht]
  by_cases hf : (st.flags t i && decide (st.buffers t i > cfg.trcmin)) = true
  · rw [if_pos hf]
    have := (Bool.and_eq_true _ _).mp hf
    exact le_of_lt (of_decide_eq_true this.2)
  · rw [if_neg hf]

/-- Claim C1 amended: at the end of every bio sub-step, every registered
tracer other than po4 and DIC is at least `trcmin` everywhere (hence in
particular inside the domain mask); po4 — and DIC when carbon is enabled —
additionally carries the post-floor bottom-remineralization term, so it is
at least `trcmin` whenever that term is nonnegative (as it is whenever the
detritus buffer entering the sub-step is nonnegative with nonnegative
sinking speed, thickness and coefficients). -/
theorem substep_floor_amended (cfg : BioConfig ι) (st : BioState ι) (t : String) (i : ι)
    (ht : t ∈ cfg.tracers) :
    (t ≠ "po4" → t ≠ "DIC" → cfg.trcmin ≤ (substep cfg st).buffers t i)
    ∧ (t = "po4" →
        0 ≤ bottomExportOf cfg st "detritus" i * cfg.redfield_ratio_PN * cfg.dt_bio →
        cfg.trcmin ≤ (substep cfg st).buffers t i)
    ∧ (t = "DIC" →
        0 ≤ (if cfg.enable_carbon = true ∧ t = "DIC" then
              bottomExportOf cfg st "detritus" i * cfg.redfield_ratio_CN * cfg.dt_bio else 0) →
        cfg.trcmin ≤ (substep cfg st).buffers t i) := by
  have hfl := floorPhase_lb cfg
    (applySinkPhase cfg st (applyRules cfg.dt_bio cfg.npzd_rules st)) t i ht
  have hb : (substep cfg st).buffers t i
      = (floorPhase cfg (applySinkPhase cfg st (applyRules cfg.dt_bio cfg.npzd_rules st))).buffers t i
        + (if t = "po4" then
            bottomExportOf cfg st "detritus" i * cfg.redfield_ratio_PN * cfg.dt_bio else 0)
        + (if cfg.enable_carbon = true ∧ t = "DIC" then
            bottomExportOf cfg st "detritus" i * cfg.redfield_ratio_CN * cfg.dt_bio else 0) := by
    rw [substep_phases]
    rfl
  refine ⟨?_, ?_, ?_⟩
  · intro h1 h2
    rw [hb, if_neg h1, if_neg (fun hc => h2 hc.2)]
    linarith
  · intro h1 h2
    have h2' : ¬(cfg.enable_carbon = true ∧ t = "DIC") := by
      rintro ⟨-, hdic⟩
      rw [h1] at hdic
      exact absurd hdic (by decide)
    rw [hb, if_pos h1, if_neg h2']
    linarith
  · intro h1 h2
    have h1' : t ≠ "po4" := by
      rw [h1]
      decide
    rw [hb, if_neg h1']
    linarith

/-- All-ones working state used to witness `substep_floor_amended`. -/
def stOnes : BioState Unit :=
  ⟨fun _ _ => 1, fun _ _ => true⟩

/-- Witness for the amended claim C1 at concrete inputs. -/
theorem substep_floor_amended_witness :
    "detritus" ∈ cfgA.tracers
    ∧ cfgA.trcmin ≤ (substep cfgA stOnes).buffers "detritus" ()
    ∧ cfgA.trcmin ≤ (substep cfgA stOnes).buffers "po4" () :=
  ⟨by decide,
   (substep_floor_amended cfgA stOnes "detritus" () (by decide)).1 (by decide) (by decide),
   (substep_floor_amended cfgA stOnes "po4" () (by decide)).2.1 rfl
     (by simp [bottomExportOf, exportOf, boolToQ, cfgA, stOnes])⟩

/-- Claim C2 counterexample: the sub-step as the source orders it (re-floor
before bottom remineralization) differs from the order stated by the claim
(remineralization before the re-floor) already on `cfgA`/`stA`. -/
theorem substep_order_counterexample :
    (substep cfgA stA).buffers "po4" () ≠ (substepSpecOrder cfgA stA).buffers "po4" () := by
  have h1 : (substep cfgA stA).buffers "po4" () = -1 := by
    simp [substep, ruleUpdates, applyUpdates, impoOf, exportOf, bottomExportOf, boolToQ,
      cfgA, stA]
  have h2 : (substepSpecOrder cfgA stA).buffers "po4" () = 0 := by
    simp [substepSpecOrder, floorPhase, reminPhase, applySinkPhase, applyRules, ruleUpdates,
      applyUpdates, impoOf, exportOf, bottomExportOf, boolToQ, cfgA, stA]
  rw [h1, h2]
  norm_num

/-- Claim C2 amended: within every bio sub-step the steps execute in the
order: PRIMARY rules scaled by the sub-timestep, then the sinking
flux divergence, then the refresh of the validity flags together with
the re-floor of all working tracers, and only after that the bottom
remineralization of detritus into po4 (and DIC when carbon is enabled),
with the sinking and bottom-export fields evaluated from the sub-step entry
state. -/
theorem substep_executes_code_order (cfg : BioConfig ι) (st : BioState ι) :
    substep cfg st =
      reminPhase cfg st
        (floorPhase cfg
          (applySinkPhase cfg st (applyRules cfg.dt_bio cfg.npzd_rules st))) :=
  substep_phases cfg st

/-- A PRIMARY rule writing a constant positive rate into po4 over the whole
volume, standing for an arbitrary external reaction function. -/
def ruleB : NpzdRule Unit :=
  ⟨["po4"], fun _ _ _ _ => 5, fun _ => true⟩

/-- One-cell configuration with the single tracer po4 and the single PRIMARY
rule `ruleB`. -/
def cfgB : BioConfig Unit :=
  { tracers := ["po4"], maskT := fun _ => true, trcmin := 0, dt_bio := 1, nbio := 1,
    npzd_pre_rules := [], npzd_rules := [ruleB], npzd_post_rules := [],
    sinkers := [], sinking_speed := fun _ _ => 0, dzt := fun _ => 1,
    above := fun _ => none, bottom_mask := fun _ => false,
    redfield_ratio_PN := 1, redfield_ratio_CN := 1, enable_carbon := false }

/-- Working state with po4 = 0 and its flag already false at the cell. -/
def stB : BioState Unit :=
  ⟨fun _ _ => 0, fun _ _ => false⟩

/-- Claim C3 counterexample: at INIT the source sets the flags to `maskT`
alone, not to `(concentration > trcmin) AND maskT` (with concentration 0 and
`trcmin = 0` inside the mask the two differ); and after a sub-step the source
ANDs the previous flag into the refreshed flag instead of recomputing it
fresh from the data (a false flag stays false even though the buffer has
risen above `trcmin`). -/
theorem flags_fresh_counterexample :
    (initState cfgB (fun _ _ => 0)).flags "po4" () ≠ initFlagsSpec cfgB (fun _ _ => 0) "po4" ()
    ∧ (substep cfgB stB).flags "po4" () ≠ (substepSpecFreshFlags cfgB stB).flags "po4" () := by
  constructor
  · have h1 : (initState cfgB (fun _ _ => 0)).flags "po4" () = true := rfl
    have h2 : initFlagsSpec cfgB (fun _ _ => 0) "po4" () = false := by
      simp [initFlagsSpec, cfgB]
    rw [h1, h2]
    decide
  · have h1 : (substep cfgB stB).flags "po4" () = false := by
      simp [substep, ruleUpdates, applyUpdates, impoOf, exportOf, boolToQ, ruleB, cfgB, stB]
    have h2 : (substepSpecFreshFlags cfgB stB).flags "po4" () = true := by
      simp [substepSpecFreshFlags, ruleUpdates, applyUpdates, impoOf, exportOf, boolToQ,
        ruleB, cfgB, stB]
    rw [h1, h2]
    decide

/-- Claim C3 amended: at INIT the validity flag of every tracer is the domain
mask alone (the concentration test of lines 28-33 is commented out), and
after every sub-step the flag of a registered tracer is the AND of its
previous value with `(current concentration > trcmin)` — flags are monotone
declining within a timestep, not recomputed fresh from the data. -/
theorem flags_monotone_amended (cfg : BioConfig ι) (init : String → ι → ℚ)
    (st : BioState ι) (t : String) (i : ι) (ht : t ∈ cfg.tracers) :
    (initState cfg init).flags t i = cfg.maskT i
    ∧ (substep cfg st).flags t i
        = (st.flags t i
            && decide ((applySinkPhase cfg st
                (applyRules cfg.dt_bio cfg.npzd_rules st)).buffers t i > cfg.trcmin)) := by
  refine ⟨rfl, ?_⟩
  have h : (substep cfg st).flags t i
      = (if t ∈ cfg.tracers then
          (st.flags t i
            && decide ((applySinkPhase cfg st
                (applyRules cfg.dt_bio cfg.npzd_rules st)).buffers t i > cfg.trcmin))
        else st.flags t i) := rfl
  rw [h, if_pos ht]

/-- Witness for the amended claim C3 at concrete inputs. -/
theorem flags_monotone_amended_witness :
    "po4" ∈ cfgB.tracers
    ∧ ((initState cfgB (fun _ _ => 0)).flags "po4" () = cfgB.maskT ()
      ∧ (substep cfgB stB).flags "po4" ()
          = (stB.flags "po4" ()
              && decide ((applySinkPhase cfgB stB
                  (applyRules cfgB.dt_bio cfgB.npzd_rules stB)).buffers "po4" ()
                  > cfgB.trcmin))) :=
  ⟨by decide, flags_monotone_amended cfgB (fun _ _ => 0) stB "po4" () (by decide)⟩

/-- Claim C8: PRE-phase rule results are added once before the sub-step loop
and POST-phase results once after it, both unscaled (scale 1); every
application of evaluated rule results adds `scale × rate` at exactly the
recorded boundary cells of each rule's keys; and within each sub-step the
PRIMARY-phase results are applied with scale `dt_bio`. -/
theorem rule_phase_application (cfg : BioConfig ι) (init : String → ι → ℚ) :
    biogeochemistry cfg init
      = postPhase cfg
          ((substep cfg)^[cfg.nbio]
            (applyRules 1 cfg.npzd_pre_rules (initState cfg init)))
    ∧ (∀ (scale : ℚ) (ups : List (RuleUpdate ι)) (b : String → ι → ℚ) (t : String) (i : ι),
        applyUpdates scale ups b t i = b t i + scale * contribSum ups t i)
    ∧ (∀ st : BioState ι,
        substep cfg st
          = reminPhase cfg st
              (floorPhase cfg
                (applySinkPhase cfg st (applyRules cfg.dt_bio cfg.npzd_rules st)))) :=
  ⟨biogeochemistry_phases cfg init,
   fun scale ups b t i => applyUpdates_eq_contribSum scale ups b t i,
   fun st => substep_phases cfg st⟩

/-- A PRIMARY leaf rule tuple with reaction function `f`, used in concrete
selection scenarios. -/
def leafTup (f : String) : RuleTuple :=
  ⟨f, "src", "dst", "?", .all, "PRIMARY"⟩

/-- A catalog with a group `G1 = [a, G2, b]` whose member `G2 = [c, d]` is
itself a group: the transitive-flattening scenario of claim C6. -/
def nestedState : NpzdSetupState :=
  ⟨[], [],
   [("G1", .lst ["a", "G2", "b"]), ("G2", .lst ["c", "d"]),
    ("a", .tup (leafTup "fa")), ("b", .tup (leafTup "fb")),
    ("c", .tup (leafTup "fc")), ("d", .tup (leafTup "fd"))],
   [], [], [], []⟩

/-- The state expected after selecting `G1` in `nestedState`: every member
selected in listed order, nested group flattened transitively, and the
PRIMARY phase sequence in the order a, c, d, b. -/
def nestedExpanded : NpzdSetupState :=
  ⟨[], [], nestedState.npzd_available_rules,
   ["G1", "a", "G2", "c", "d", "b"],
   [leafTup "fa", leafTup "fc", leafTup "fd", leafTup "fb"],
   [], []⟩

/-- Claim C6: selecting a name already selected in the same configuration is
an error; selecting a group recursively selects every member in listed order
(the selection of a group is exactly the in-order fold of the selection over
its member list, which preserves member order in the appended-to phase
sequences); and nested groups flatten transitively, as the concrete
`nestedState` scenario shows. -/
theorem select_rule_duplicate_and_group_order :
    (∀ (fuel : ℕ) (st : NpzdSetupState) (name : String) (r : RuleVal),
        st.npzd_available_rules.lookup name = some r →
        name ∈ st.npzd_selected_rule_names →
        select_npzd_rule (fuel + 1) st name
          = .error "Rules must have unique names, defined multiple times")
    ∧ (∀ (fuel : ℕ) (st : NpzdSetupState) (name : String) (members : List String),
        st.npzd_available_rules.lookup name = some (.lst members) →
        name ∉ st.npzd_selected_rule_names →
        select_npzd_rule (fuel + 1) st name
          = members.foldlM (fun s r => select_npzd_rule fuel s r)
              { st with
                npzd_selected_rule_names := st.npzd_selected_rule_names ++ [name] })
    ∧ select_npzd_rule 3 nestedState "G1" = .ok nestedExpanded := by
  refine ⟨?_, ?_, ?_⟩
  · intro fuel st name r h1 h2
    simp only [select_npzd_rule, h1, if_pos h2]
  · intro fuel st name members h1 h2
    simp only [select_npzd_rule, h1, if_neg h2]
  · decide

/-- A one-rule catalog with the rule already selected, used to witness the
duplicate-selection error. -/
def dupState : NpzdSetupState :=
  ⟨[], [], [("x", .tup (leafTup "f"))], ["x"], [], [], []⟩

/-- A catalog with a one-member group, used to witness the group fold. -/
def groupState : NpzdSetupState :=
  ⟨[], [], [("g", .lst ["x"]), ("x", .tup (leafTup "f"))], [], [], [], []⟩

/-- Witness for claim C6 at concrete inputs. -/
theorem select_rule_duplicate_and_group_order_witness :
    (dupState.npzd_available_rules.lookup "x" = some (.tup (leafTup "f"))
      ∧ "x" ∈ dupState.npzd_selected_rule_names
      ∧ select_npzd_rule (0 + 1) dupState "x"
          = .error "Rules must have unique names, defined multiple times")
    ∧ (groupState.npzd_available_rules.lookup "g" = some (.lst ["x"])
      ∧ "g" ∉ groupState.npzd_selected_rule_names
      ∧ select_npzd_rule (1 + 1) groupState "g"
          = ["x"].foldlM (fun s r => select_npzd_rule 1 s r)
              { groupState with
                npzd_selected_rule_names := groupState.npzd_selected_rule_names ++ ["g"] }) :=
  ⟨⟨by decide, by decide,
    select_rule_duplicate_and_group_order.1 0 dupState "x" (.tup (leafTup "f"))
      (by decide) (by decide)⟩,
   ⟨by decide, by decide,
    select_rule_duplicate_and_group_order.2.1 1 groupState "g" ["x"]
      (by decide) (by decide)⟩⟩

/-- Claim C7: each configuration error raises at setup time — a duplicate
tracer name in `register_npzd_data`, a duplicate rule name in
`register_npzd_rule`, a label or boundary supplied along with a group, and
selecting a catalog value that is neither a tuple nor a list; and a new
tracer is appended to the transported-tracer list iff its transport flag is
true. -/
theorem setup_config_errors (st : NpzdSetupState) (name : String) :
    (∀ transport : Bool, name ∈ st.npzd_tracers →
        register_npzd_data st name transport
          = .error "has already been added to the NPZD data set")
    ∧ (∀ (rule : RuleArg) (label boundary : Option String) (group : String),
        (st.npzd_available_rules.lookup name).isSome = true →
        register_npzd_rule st name rule label boundary group
          = .error "Rule already exists, please verify the rule has not already been added and replace the chosen name")
    ∧ (∀ (members : List String) (label boundary : Option String) (group : String),
        (st.npzd_available_rules.lookup name).isSome = false →
        (strTruthy label || strTruthy boundary) = true →
        register_npzd_rule st name (.lstArg members) label boundary group
          = .error "Cannot add labels or boundaries to rule groups")
    ∧ (∀ fuel : ℕ,
        st.npzd_available_rules.lookup name = some .other →
        name ∉ st.npzd_selected_rule_names →
        select_npzd_rule (fuel + 1) st name
          = .error "Rule must be of type tuple or list")
    ∧ (∀ transport : Bool, name ∉ st.npzd_tracers →
        register_npzd_data st name transport
          = .ok { st with
              npzd_tracers := st.npzd_tracers ++ [name],
              npzd_transported_tracers :=
                if transport then st.npzd_transported_tracers ++ [name]
                else st.npzd_transported_tracers }) := by
  refine ⟨?_, ?_, ?_, ?_, ?_⟩
  · intro transport h
    simp only [register_npzd_data, if_pos h]
  · intro rule label boundary group h
    simp only [register_npzd_rule, h, if_pos]
  · intro members label boundary group h1 h2
    simp only [register_npzd_rule, h1, Bool.false_eq_true, if_false, h2, if_true]
  · intro fuel h1 h2
    simp only [select_npzd_rule, h1, if_neg h2]
  · intro transport h
    simp only [register_npzd_data, if_neg h]

/-- A state whose catalog holds a value that is neither a tuple nor a list,
used to witness the `TypeError` branch of `select_npzd_rule`. -/
def otherState : NpzdSetupState :=
  ⟨["po4"], ["po4"], [("weird", .other)], [], [], [], []⟩

/-- Witness for claim C7 at concrete inputs. -/
theorem setup_config_errors_witness :
    ("po4" ∈ otherState.npzd_tracers
      ∧ register_npzd_data otherState "po4" true
          = .error "has already been added to the NPZD data set")
    ∧ ((otherState.npzd_available_rules.lookup "weird").isSome = true
      ∧ register_npzd_rule otherState "weird" (.tupArg "f" "s" "d") none none "PRIMARY"
          = .error "Rule already exists, please verify the rule has not already been added and replace the chosen name")
    ∧ ((otherState.npzd_available_rules.lookup "grp").isSome = false
      ∧ (strTruthy (some "label") || strTruthy none) = true
      ∧ register_npzd_rule otherState "grp" (.lstArg ["weird"]) (some "label") none "PRIMARY"
          = .error "Cannot add labels or boundaries to rule groups")
    ∧ (otherState.npzd_available_rules.lookup "weird" = some .other
      ∧ "weird" ∉ otherState.npzd_selected_rule_names
      ∧ select_npzd_rule (0 + 1) otherState "weird"
          = .error "Rule must be of type tuple or list")
    ∧ ("dop" ∉ otherState.npzd_tracers
      ∧ register_npzd_data otherState "dop" false
          = .ok { otherState with
              npzd_tracers := otherState.npzd_tracers ++ ["dop"],
              npzd_transported_tracers :=
                if false then otherState.npzd_transported_tracers ++ ["dop"]
                else otherState.npzd_transported_tracers }) :=
  ⟨⟨by decide, (setup_config_errors otherState "po4").1 true (by decide)⟩,
   ⟨by decide, (setup_config_errors otherState "weird").2.1 (.tupArg "f" "s" "d") none none
      "PRIMARY" (by decide)⟩,
   ⟨by decide, by decide, (setup_config_errors otherState "grp").2.2.1 ["weird"] (some "label")
      none "PRIMARY" (by decide) (by decide)⟩,
   ⟨by decide, by decide, (setup_config_errors otherState "weird").2.2.2.1 0 (by decide)
      (by decide)⟩,
   ⟨by decide, (setup_config_errors otherState "dop").2.2.2.2 false (by decide)⟩⟩

/-- Registry state after `setup_carbon_npzd_rules` with calcifiers enabled. -/
def stCarbonT : NpzdSetupState := exOk (setup_carbon_npzd_rules true stBasic)

/-- Registry state after `setup_carbon_npzd_rules` with calcifiers disabled. -/
def stCarbonF : NpzdSetupState := exOk (setup_carbon_npzd_rules false stBasic)

/-- Registry state after additionally selecting `group_carbon_implicit_caco3`. -/
def stCarbonSel : NpzdSetupState :=
  exOk (select_npzd_rule 2 stCarbonF "group_carbon_implicit_caco3")

/-- Claim C9: run on the state `setupNPZD` hands it (the basic NPZD registry),
`setup_carbon_npzd_rules` succeeds and registers exactly the additional
tracers DIC and alkalinity — plus caco3, untransported, exactly when
calcifiers are disabled — and selecting `group_carbon_implicit_caco3`
succeeds and selects exactly its eleven member rules, populating the three
phase lists with exactly the registered carbon rule tuples. -/
theorem carbon_setup_exact :
    setup_carbon_npzd_rules true stBasic = .ok stCarbonT
    ∧ setup_carbon_npzd_rules false stBasic = .ok stCarbonF
    ∧ stCarbonT.npzd_tracers = stBasic.npzd_tracers ++ ["DIC", "alkalinity"]
    ∧ stCarbonF.npzd_tracers = stBasic.npzd_tracers ++ ["DIC", "alkalinity", "caco3"]
    ∧ stCarbonT.npzd_transported_tracers
        = stBasic.npzd_transported_tracers ++ ["DIC", "alkalinity"]
    ∧ stCarbonF.npzd_transported_tracers
        = stBasic.npzd_transported_tracers ++ ["DIC", "alkalinity"]
    ∧ stCarbonF.npzd_available_rules.lookup "group_carbon_implicit_caco3"
        = some (.lst carbonGroupNames)
    ∧ carbonGroupNames.length = 11
    ∧ select_npzd_rule 2 stCarbonF "group_carbon_implicit_caco3" = .ok stCarbonSel
    ∧ stCarbonSel.npzd_selected_rule_names
        = "group_carbon_implicit_caco3" :: carbonGroupNames
    ∧ stCarbonSel.npzd_pre_rules
        = [⟨"co2_surface_flux", "co2", "DIC", "?", .surface, "PRE"⟩,
           ⟨"pre_reset_calcite", "caco3", "caco3", "reset", .all, "PRE"⟩]
    ∧ stCarbonSel.npzd_rules
        = [⟨"recycling_to_dic", "detritus", "DIC", "Remineralization", .all, "PRIMARY"⟩,
           ⟨"primary_production_from_DIC", "DIC", "phytoplankton", "Primary production", .all, "PRIMARY"⟩,
           ⟨"recycling_phyto_to_dic", "phytoplankton", "DIC", "Fast recycling", .all, "PRIMARY"⟩,
           ⟨"excretion_dic", "zooplankton", "DIC", "Excretion", .all, "PRIMARY"⟩,
           ⟨"calcite_production_phyto", "DIC", "caco3", "Production of calcite", .all, "PRIMARY"⟩,
           ⟨"calcite_production_phyto_alk", "alkalinity", "caco3", "Production of calcite", .all, "PRIMARY"⟩]
    ∧ stCarbonSel.npzd_post_rules
        = [⟨"dic_alk_scale", "DIC", "alkalinity", "?", .all, "POST"⟩,
           ⟨"post_redistribute_calcite", "caco3", "alkalinity", "dissolution", .all, "POST"⟩,
           ⟨"post_redistribute_calcite", "caco3", "DIC", "dissolution", .all, "POST"⟩] := by
  decide

/-- Helper: a key absent from the front part of an association list is looked
up in the back part. -/
lemma lookup_append_of_none {β : Type} (l1 l2 : List (String × β)) (a : String)
    (h : l1.lookup a = none) : (l1 ++ l2).lookup a = l2.lookup a := by
  induction l1 with
  | nil => rfl
  | cons p l ih =>
      obtain ⟨k, v⟩ := p
      simp only [List.cons_append, List.lookup] at h ⊢
      cases hpa : (a == k) with
      | true =>
          simp only [hpa] at h
          exact Option.noConfusion h
      | false =>
          simp only [hpa] at h ⊢
          exact ih h

/-- The state produced by registering a single-rule tuple under a fresh name
(the success branch of `register_npzd_rule` at line 404). -/
def regState (st : NpzdSetupState) (name f s d : String)
    (label boundary : Option String) (g : String) : NpzdSetupState :=
  { st with
    npzd_available_rules :=
      st.npzd_available_rules
        ++ [(name, .tup ⟨f, s, d, labelOr label, _get_boundary boundary, g⟩)] }

/-- Claim C10: `register_npzd_rule` accepts any string as the execution group,
and `select_npzd_rule` then succeeds but appends the rule to no phase list
when the group is none of "PRIMARY"/"PRE"/"POST" — the selection only
records the name, so the rule is never executed. -/
theorem unknown_group_rule_never_executed (st : NpzdSetupState)
    (name f s d : String) (label boundary : Option String) (g : String) (fuel : ℕ)
    (hreg : st.npzd_available_rules.lookup name = none)
    (hg1 : g ≠ "PRIMARY") (hg2 : g ≠ "PRE") (hg3 : g ≠ "POST")
    (hsel : name ∉ st.npzd_selected_rule_names) :
    register_npzd_rule st name (.tupArg f s d) label boundary g
      = .ok (regState st name f s d label boundary g)
    ∧ select_npzd_rule (fuel + 1) (regState st name f s d label boundary g) name
      = .ok { regState st name f s d label boundary g with
          npzd_selected_rule_names := st.npzd_selected_rule_names ++ [name] } := by
  constructor
  · simp only [register_npzd_rule, hreg, Option.isSome_none, Bool.false_eq_true, if_false,
      regState]
  · have hlook : (regState st name f s d label boundary g).npzd_available_rules.lookup name
        = some (.tup ⟨f, s, d, labelOr label, _get_boundary boundary, g⟩) := by
      show (st.npzd_available_rules ++ [(name, _)]).lookup name = _
      rw [lookup_append_of_none _ _ _ hreg]
      simp [List.lookup]
    have hsel' : name ∉ (regState st name f s d label boundary g).npzd_selected_rule_names :=
      hsel
    simp only [select_npzd_rule, hlook, if_neg hsel', if_neg hg1, if_neg hg2, if_neg hg3]
    rfl

/-- Witness for claim C10 at concrete inputs. -/
theorem unknown_group_rule_never_executed_witness :
    (initialSetupState.npzd_available_rules.lookup "r0" = none
      ∧ ("WEIRD" : String) ≠ "PRIMARY" ∧ ("WEIRD" : String) ≠ "PRE"
      ∧ ("WEIRD" : String) ≠ "POST"
      ∧ "r0" ∉ initialSetupState.npzd_selected_rule_names)
    ∧ (register_npzd_rule initialSetupState "r0" (.tupArg "f" "s" "d") none none "WEIRD"
        = .ok (regState initialSetupState "r0" "f" "s" "d" none none "WEIRD")
      ∧ select_npzd_rule (0 + 1) (regState initialSetupState "r0" "f" "s" "d" none none "WEIRD")
          "r0"
        = .ok { regState initialSetupState "r0" "f" "s" "d" none none "WEIRD" with
            npzd_selected_rule_names :=
              initialSetupState.npzd_selected_rule_names ++ ["r0"] }) :=
  ⟨⟨rfl, by decide, by decide, by decide, by decide⟩,
   unknown_group_rule_never_executed initialSetupState "r0" "f" "s" "d" none none "WEIRD" 0
     rfl (by decide) (by decide) (by decide) (by decide)⟩
